import Mathlib

/-!
Verification of the Speech Coordination Core of `simplettsreader-rs`.

The Rust source (`src/lib.rs`) is shallowly embedded below.  The platform
TTS engine (sapi-lite) is external: each fallible platform call consumes
one slot of an oracle `ok : Nat → Bool` carried in the state, which decides
whether that call succeeds, and every platform-visible action is recorded
in an event trace so that ordering properties ("the old session is dropped
before the new text is submitted") can be stated.  Settings persistence
(confy) is modelled by a `stored : Option Config` field, `none` standing
for an unreadable / unparsable settings file.
-/

namespace SimpleTTSReader

/-- An error from any platform TTS call (`sapi_lite` returning `Err`). -/
inductive EngineError where
  | engineError
deriving DecidableEq, Repr

/-- A platform voice descriptor: the display name and the language tag,
after lossy string conversion (`unwrap_or_default().to_string_lossy()`). -/
structure Voice where
  name : String
  language : String
deriving DecidableEq, Repr

/-- `get_voice_name` (lib.rs 47-59): the derived display identifier
`"name [language]"`. -/
def get_voice_name (v : Voice) : String :=
  v.name ++ " [" ++ v.language ++ "]"

/-- `Config` (lib.rs 10-16): the persisted settings record. -/
structure Config where
  voice_name : String
  rate : Int
  volume : Nat
  hidden : Bool
deriving DecidableEq, Repr

/-- `Config::default` (lib.rs 36-45). -/
def Config.default : Config :=
  { voice_name := "", rate := 0, volume := 100, hidden := false }

/-- `Config::load` (lib.rs 19-29).  `stored = none` models a failing
`confy::load` (missing or corrupt file); Rust's `i32::clamp(-10, 10)` is
`min 10 (max (-10) r)` and `u32::clamp(0, 100)` is `min 100 v`. -/
def Config.load (stored : Option Config) (sanitize : Bool) : Config :=
  match stored with
  | some config =>
      if sanitize then
        { config with rate := min 10 (max (-10) config.rate),
                      volume := min 100 config.volume }
      else config
  | none => Config.default

/-- Platform-visible events, in the order the Coordinator causes them. -/
inductive Event where
  | newSession (sid : Nat)
  | dropSession (sid : Nat)
  | engineSetVoice (sid : Nat) (v : Voice)
  | engineSetRate (sid : Nat) (r : Int)
  | engineSetVolume (sid : Nat) (vol : Nat)
  | submit (sid : Nat) (text : String) (uid : Nat)
  | storeConfig (c : Config)
deriving DecidableEq, Repr

/-- The state of `SpeechApp` (lib.rs 67-71) together with the modelled
environment: the oracle `ok` deciding the outcome of each platform call,
the call counter, session identified by `synth`, the attributes the
current session actually carries (`sessVoice`/`sessRate`/`sessVolume`,
reset to platform defaults whenever a session is constructed), the
enumerated voice catalog, the in-memory `config`, the on-disk `stored`
settings, and the event trace. -/
structure AppState where
  ok : Nat → Bool
  calls : Nat
  synth : Nat
  nextSid : Nat
  nextUid : Nat
  sessVoice : Option Voice
  sessRate : Int
  sessVolume : Nat
  voices : List Voice
  config : Config
  stored : Option Config
  trace : List Event

/-- `Config::store` (lib.rs 31-34): best-effort persistence (a failing
`confy::store` is swallowed by `_ =`), modelled as always recording the
write. -/
def Config.store (c : Config) (s : AppState) : AppState :=
  { s with stored := some c, trace := s.trace ++ [Event.storeConfig c] }

/-- Rust's `Iterator::position`: index of the first element satisfying the
predicate. -/
def position (p : α → Bool) : List α → Option Nat
  | [] => none
  | a :: tl => if p a then some 0 else (position p tl).map (· + 1)

/-- `SpeechApp::get_voice_by_name` (lib.rs 90-95). -/
def AppState.get_voice_by_name (s : AppState) (voice_name : Option String) :
    Option Voice :=
  let name := voice_name.getD s.config.voice_name
  s.voices.find? (fun voice => get_voice_name voice == name)

/-- `SpeechApp::get_voice_name_by_index` (lib.rs 97-103). -/
def AppState.get_voice_name_by_index (s : AppState) (index : Nat) : String :=
  if h : index < s.voices.length then get_voice_name (s.voices.get ⟨index, h⟩)
  else ""

/-- `SpeechApp::get_voice_index` (lib.rs 105-110). -/
def AppState.get_voice_index (s : AppState) (voice_name : Option String) :
    Option Nat :=
  let name := voice_name.getD s.config.voice_name
  position (fun voice => get_voice_name voice == name) s.voices

/-- One platform call `self.synth.set_voice(voice)` (lib.rs 119/121):
consumes an oracle slot; on success the session's voice changes and the
call is traced, on failure an `EngineError` is returned. -/
def AppState.synthSetVoice (s : AppState) (v : Voice) :
    AppState × Except EngineError Unit :=
  if s.ok s.calls then
    ({ s with
        calls := s.calls + 1, sessVoice := some v,
        trace := s.trace ++ [Event.engineSetVoice s.synth v] }, Except.ok ())
  else ({ s with calls := s.calls + 1 }, Except.error EngineError.engineError)

/-- One platform call `self.synth.set_rate(rate)` (lib.rs 132). -/
def AppState.synthSetRate (s : AppState) (r : Int) :
    AppState × Except EngineError Unit :=
  if s.ok s.calls then
    ({ s with
        calls := s.calls + 1, sessRate := r,
        trace := s.trace ++ [Event.engineSetRate s.synth r] }, Except.ok ())
  else ({ s with calls := s.calls + 1 }, Except.error EngineError.engineError)

/-- One platform call `self.synth.set_volume(volume)` (lib.rs 141). -/
def AppState.synthSetVolume (s : AppState) (vol : Nat) :
    AppState × Except EngineError Unit :=
  if s.ok s.calls then
    ({ s with
        calls := s.calls + 1, sessVolume := vol,
        trace := s.trace ++ [Event.engineSetVolume s.synth vol] }, Except.ok ())
  else ({ s with calls := s.calls + 1 }, Except.error EngineError.engineError)

/-- `SpeechApp::set_voice` (lib.rs 112-124): an explicit name is written
into the config and persisted; then the requested (or persisted) name is
resolved against the catalog, falling back to the first enumerated voice,
and applied to the live session; with an empty catalog nothing is applied
and the call succeeds. -/
def AppState.set_voice (s : AppState) (voice_name : Option String) :
    AppState × Except EngineError Unit :=
  let s1 := match voice_name with
    | some name =>
        Config.store { s.config with voice_name := name }
          { s with config := { s.config with voice_name := name } }
    | none => s
  match s1.get_voice_by_name voice_name with
  | some voice => s1.synthSetVoice voice
  | none =>
      match s1.voices with
      | [] => (s1, Except.ok ())
      | v0 :: _ => s1.synthSetVoice v0

/-- `SpeechApp::set_rate` (lib.rs 126-133). -/
def AppState.set_rate (s : AppState) (rate : Option Int) :
    AppState × Except EngineError Unit :=
  let s1 := match rate with
    | some r =>
        Config.store { s.config with rate := r }
          { s with config := { s.config with rate := r } }
    | none => s
  s1.synthSetRate s1.config.rate

/-- `SpeechApp::set_volume` (lib.rs 135-142). -/
def AppState.set_volume (s : AppState) (volume : Option Nat) :
    AppState × Except EngineError Unit :=
  let s1 := match volume with
    | some vol =>
        Config.store { s.config with volume := vol }
          { s with config := { s.config with volume := vol } }
    | none => s
  s1.synthSetVolume s1.config.volume

/-- The assignment `self.synth = EventfulSynthesizer::new(..)?` after a
successful construction (lib.rs 146): the right-hand side has already
been constructed, so the new session appears and then the previous one is
dropped (its `Drop` halts any in-flight audio); the fresh session starts
at platform defaults. -/
def AppState.newSessionStep (s : AppState) : AppState :=
  { s with
      calls := s.calls + 1, synth := s.nextSid, nextSid := s.nextSid + 1,
      sessVoice := none, sessRate := 0, sessVolume := 100,
      trace := s.trace ++ [Event.newSession s.nextSid, Event.dropSession s.synth] }

/-- The platform call `self.synth.speak(speech)` (lib.rs 152): submits the
text on the current session and returns the platform utterance id. -/
def AppState.submitStep (s : AppState) (text : String) :
    AppState × Except EngineError Nat :=
  if s.ok s.calls then
    ({ s with
        calls := s.calls + 1, nextUid := s.nextUid + 1,
        trace := s.trace ++ [Event.submit s.synth text s.nextUid] },
     Except.ok s.nextUid)
  else ({ s with calls := s.calls + 1 }, Except.error EngineError.engineError)

/-- `SpeechApp::speak` (lib.rs 144-153): construct a replacement session
(failure keeps the old one), drop the old session, re-apply voice, rate
and volume from the current config, then submit the text. -/
def AppState.speak (s : AppState) (text : String) :
    AppState × Except EngineError Nat :=
  if s.ok s.calls then
    match s.newSessionStep.set_voice none with
    | (s3, Except.error e) => (s3, Except.error e)
    | (s3, Except.ok _) =>
      match s3.set_rate none with
      | (s4, Except.error e) => (s4, Except.error e)
      | (s4, Except.ok _) =>
        match s4.set_volume none with
        | (s5, Except.error e) => (s5, Except.error e)
        | (s5, Except.ok _) => s5.submitStep text
  else ({ s with calls := s.calls + 1 }, Except.error EngineError.engineError)

/-- The `--hidden` command-line override applied in `run` (lib.rs 205-207). -/
def applyHidden (c : Config) (hidden : Option Bool) : Config :=
  match hidden with
  | some h => { c with hidden := h }
  | none => c

/-- The startup settings phase of `run` (lib.rs 199-212): load once
un-sanitized and once sanitized, apply the command-line hidden override,
and persist when the result differs from the un-sanitized load.  Returns
the resulting config, the on-disk state afterwards, and whether a persist
was triggered. -/
def startupConfig (stored : Option Config) (hidden : Option Bool) :
    Config × Option Config × Bool :=
  let original_config := Config.load stored false
  let config := applyHidden (Config.load stored true) hidden
  if config = original_config then (config, stored, false)
  else (config, some config, true)

/-- `clipboard_master::CallbackResult`. -/
inductive CallbackResult where
  | Next
  | Stop
  | StopWithError
deriving DecidableEq, Repr

/-- `ClipboardListener::on_clipboard_change` (lib.rs 185-192).
`readText = none` models a failing `clipboard.get_text()` (non-text
content); `coordinator = none` models a failed `Weak::upgrade` (the owner
already released the `SpeechApp`).  A triggered `speak` has its result
discarded (`let _ =`), so an `EngineError` is ignored. -/
def on_clipboard_change (readText : Option String)
    (coordinator : Option AppState) : Option AppState × CallbackResult :=
  match readText with
  | some text =>
      match coordinator with
      | some app => (some (app.speak text).1, CallbackResult.Next)
      | none => (none, CallbackResult.Next)
  | none => (coordinator, CallbackResult.Next)

/-- `ClipboardListener::on_clipboard_error` (lib.rs 194-196). -/
def on_clipboard_error : CallbackResult := CallbackResult.Next

/-- The UI test-button callback (lib.rs 311-321):
`speech_app.lock().speak(&test_string).unwrap()`.  `none` models the
`unwrap` panicking on an `EngineError`, which aborts the process. -/
def on_test_button_clicked (s : AppState) (test_string : String) :
    Option (AppState × Nat) :=
  match s.speak test_string with
  | (s1, Except.ok id) => some (s1, id)
  | (_, Except.error _) => none

/-- The voice the Coordinator applies to a fresh session for the persisted
voice name: the first catalog entry whose display identifier matches, or
the first enumerated voice as a fallback, or nothing when the catalog is
empty. -/
def resolvedVoice (s : AppState) : Option Voice :=
  match s.voices.find? (fun voice => get_voice_name voice == s.config.voice_name) with
  | some voice => some voice
  | none => s.voices.head?

/-- The exact trace extension produced by a fully successful `speak`. -/
def speakTraceExt (s : AppState) (text : String) : List Event :=
  [Event.newSession s.nextSid, Event.dropSession s.synth] ++
  (match resolvedVoice s with
   | some v => [Event.engineSetVoice s.nextSid v]
   | none => []) ++
  [Event.engineSetRate s.nextSid s.config.rate,
   Event.engineSetVolume s.nextSid s.config.volume,
   Event.submit s.nextSid text s.nextUid]

/-- Whether the current session is live and configured per the current
settings: its rate and volume equal the config's, and it carries the
voice the config resolves to (vacuous when the catalog is empty). -/
def sessionMatchesConfig (s : AppState) : Bool :=
  decide (s.sessRate = s.config.rate) &&
  decide (s.sessVolume = s.config.volume) &&
  (match resolvedVoice s with
   | some v => decide (s.sessVoice = some v)
   | none => true)

/-- Select the submission events of a trace. -/
def isSubmit : Event → Bool
  | Event.submit _ _ _ => true
  | _ => false

def submitEvents (tr : List Event) : List Event := tr.filter isSubmit

/-- Select the settings-persist events of a trace. -/
def isStore : Event → Bool
  | Event.storeConfig _ => true
  | _ => false

def storeEvents (tr : List Event) : List Event := tr.filter isStore

/-! Concrete states used by witnesses and counterexamples. -/

/-- A ready state with a one-voice catalog, on the all-success oracle. -/
def stReady : AppState :=
  { ok := fun _ => true, calls := 0, synth := 0, nextSid := 1, nextUid := 0,
    sessVoice := some ⟨"Alice", "en-US"⟩, sessRate := 0, sessVolume := 100,
    voices := [⟨"Alice", "en-US"⟩],
    config := { voice_name := "Alice [en-US]", rate := 0, volume := 100, hidden := false },
    stored := none, trace := [] }

/-- The same ready state on the all-failure oracle: every platform call
returns an error. -/
def stEngineDown : AppState := { stReady with ok := fun _ => false }

/-- A state whose catalog holds two voices with the same display
identifier. -/
def stDupCatalog : AppState :=
  { stReady with voices := [⟨"A", "en"⟩, ⟨"A", "en"⟩] }

/-- A state whose catalog holds two distinct voices. -/
def stTwoVoices : AppState :=
  { stReady with voices := [⟨"Alice", "en-US"⟩, ⟨"Bob", "en-GB"⟩] }

/-! Helper lemmas. -/

theorem resolvedVoice_newSessionStep (s : AppState) :
    resolvedVoice s.newSessionStep = resolvedVoice s := rfl

/-- C7: every clipboard-change notification yields the `continue` result:
a failed text read skips the event, a failed upgrade of the weak
Coordinator reference skips the event, an `EngineError` from the
triggered `speak` is discarded (the coordinator keeps its post-`speak`
state either way), and a listener-level error also yields `continue`; the
handler is a total function, so it never panics or stops the listen
loop. -/
theorem clipboard_handler_always_continues (readText : Option String)
    (coordinator : Option AppState) (t : String) (app : AppState) :
    (on_clipboard_change readText coordinator).2 = CallbackResult.Next ∧
    on_clipboard_change (some t) (some app) =
      (some (app.speak t).1, CallbackResult.Next) ∧
    on_clipboard_change none coordinator = (coordinator, CallbackResult.Next) ∧
    on_clipboard_change (some t) none = (none, CallbackResult.Next) ∧
    on_clipboard_error = CallbackResult.Next := by
  refine ⟨?_, rfl, rfl, rfl, rfl⟩
  rcases readText with _ | t0 <;> rcases coordinator with _ | app0 <;> rfl

/-- C8: `Config.load` is total (it never fails): a failing read or parse
(`stored = none`) yields the documented defaults `voiceName=""`,
`rate=0`, `volume=100`, `hidden=false`, and with `sanitize = true` the
returned rate lies in [-10, 10] and the returned volume in [0, 100],
out-of-range values being clamped rather than rejected (voice name and
hidden flag pass through unchanged). -/
theorem config_load_defaults_and_sanitize (stored : Option Config) (b : Bool)
    (c : Config) :
    Config.load none b = { voice_name := "", rate := 0, volume := 100, hidden := false } ∧
    -10 ≤ (Config.load stored true).rate ∧
    (Config.load stored true).rate ≤ 10 ∧
    (Config.load stored true).volume ≤ 100 ∧
    (Config.load (some c) true).voice_name = c.voice_name ∧
    (Config.load (some c) true).hidden = c.hidden := by
  refine ⟨by cases b <;> rfl, ?_, ?_, ?_, rfl, rfl⟩ <;>
    rcases stored with _ | c0 <;>
      simp [Config.load, Config.default]

/-- C4 counterexample: with the defaults on disk and an explicit
`--hidden true` command-line override, the un-sanitized and sanitized
loads are equal, yet the startup phase still triggers a persist — so the
persist is not triggered exactly when the two loads differ. -/
theorem startup_persist_not_iff_loads_differ :
    Config.load (some Config.default) false = Config.load (some Config.default) true ∧
    (startupConfig (some Config.default) (some true)).2.2 = true := by
  constructor <;> rfl

/-- C4 amended: at startup the caller loads settings once un-sanitized
and once sanitized, applies any command-line hidden override to the
sanitized result, and persists exactly when that result differs from the
un-sanitized load (so a hidden override alone can also trigger the
persist); afterwards an un-sanitized load always returns the
sanitized-and-overridden values.  In particular, with persisted
`rate=25` and `volume=150`, the sanitized load yields `rate=10` and
`volume=100`, a persist is triggered, and the next un-sanitized load
returns `rate=10` and `volume=100`. -/
theorem startup_heals_config (stored : Option Config) (hidden : Option Bool) :
    ((startupConfig stored hidden).2.2 = true ↔
      applyHidden (Config.load stored true) hidden ≠ Config.load stored false) ∧
    (startupConfig stored hidden).1 = applyHidden (Config.load stored true) hidden ∧
    Config.load (startupConfig stored hidden).2.1 false =
      applyHidden (Config.load stored true) hidden ∧
    (startupConfig (some { voice_name := "", rate := 25, volume := 150, hidden := false }) none).1 =
      { voice_name := "", rate := 10, volume := 100, hidden := false } ∧
    (startupConfig (some { voice_name := "", rate := 25, volume := 150, hidden := false }) none).2.2 = true ∧
    Config.load
      (startupConfig (some { voice_name := "", rate := 25, volume := 150, hidden := false }) none).2.1
      false =
      { voice_name := "", rate := 10, volume := 100, hidden := false } := by
  refine ⟨?_, ?_, ?_, rfl, rfl, rfl⟩
  · by_cases hc : applyHidden (Config.load stored true) hidden = Config.load stored false <;>
      simp [startupConfig, hc]
  · by_cases hc : applyHidden (Config.load stored true) hidden = Config.load stored false <;>
      simp [startupConfig, hc]
  · by_cases hc : applyHidden (Config.load stored true) hidden = Config.load stored false
    · simp only [startupConfig, if_pos hc]
      rw [hc]
    · simp only [startupConfig, if_neg hc]
      simp [Config.load]

theorem position_map_nodup (l : List Voice) (i : Nat) (h : i < l.length)
    (hnd : (l.map get_voice_name).Nodup) :
    position (fun voice => get_voice_name voice == get_voice_name (l.get ⟨i, h⟩)) l =
      some i := by
  induction l generalizing i with
  | nil => simp at h
  | cons a tl ih =>
    rw [List.map_cons, List.nodup_cons] at hnd
    rcases i with _ | j
    · simp [position]
    · have hj : j < tl.length := Nat.lt_of_succ_lt_succ h
      have hget : (a :: tl).get ⟨j + 1, h⟩ = tl.get ⟨j, hj⟩ := rfl
      have hne : ¬ get_voice_name a = get_voice_name (tl.get ⟨j, hj⟩) := by
        intro he
        exact hnd.1 (he ▸ List.mem_map_of_mem get_voice_name (tl.get_mem j hj))
      have ihj := ih j hj hnd.2
      simp only [List.get_eq_getElem] at ihj hne
      rw [hget]
      simp only [List.get_eq_getElem]
      simp [position, hne, ihj]

/-- C6 counterexample: in a catalog whose two voices share one display
identifier, `lookup_index` applied to the identifier derived for the
voice at position 1 returns `some 0`, not `some 1`. -/
theorem voice_roundtrip_duplicate_counterexample :
    1 < stDupCatalog.voices.length ∧
    stDupCatalog.get_voice_index (some (stDupCatalog.get_voice_name_by_index 1)) =
      some 0 ∧
    stDupCatalog.get_voice_index (some (stDupCatalog.get_voice_name_by_index 1)) ≠
      some 1 := by
  refine ⟨by decide, by decide, by decide⟩

/-- C6 amended: for every voice at position i in a catalog whose derived
display identifiers are pairwise distinct, `lookup_index` applied to that
voice's display identifier returns `some i`, and `name_at i` returns the
same identifier (with duplicate identifiers, `lookup_index` returns the
position of the first matching entry instead). -/
theorem voice_roundtrip_lookup (s : AppState) (i : Nat) (h : i < s.voices.length)
    (hnd : (s.voices.map get_voice_name).Nodup) :
    s.get_voice_index (some (s.get_voice_name_by_index i)) = some i ∧
    s.get_voice_name_by_index i = get_voice_name (s.voices.get ⟨i, h⟩) := by
  have hname : s.get_voice_name_by_index i = get_voice_name (s.voices.get ⟨i, h⟩) := by
    simp [AppState.get_voice_name_by_index, h]
  refine ⟨?_, hname⟩
  rw [hname]
  simpa [AppState.get_voice_index] using position_map_nodup s.voices i h hnd

theorem voice_roundtrip_lookup_witness :
    (1 < stTwoVoices.voices.length ∧
      (stTwoVoices.voices.map get_voice_name).Nodup) ∧
    (stTwoVoices.get_voice_index (some (stTwoVoices.get_voice_name_by_index 1)) =
        some 1 ∧
      stTwoVoices.get_voice_name_by_index 1 =
        get_voice_name (stTwoVoices.voices.get ⟨1, by decide⟩)) :=
  ⟨⟨by decide, by decide⟩, voice_roundtrip_lookup stTwoVoices 1 (by decide) (by decide)⟩

/-- C3: when the requested voice name (explicit, or the persisted one when
the argument is absent) matches no catalog entry's display identifier,
`set_voice` succeeds; with a non-empty catalog it applies the first
enumerated voice to the live session (tracing the engine call on the
current session), and with an empty catalog it performs no engine call
and changes no session attribute. -/
theorem set_voice_fallback (s : AppState) (vn : Option String)
    (hok : ∀ n, s.ok n = true)
    (habs : ∀ v ∈ s.voices, get_voice_name v ≠ vn.getD s.config.voice_name) :
    (s.set_voice vn).2 = Except.ok () ∧
    (s.voices = [] →
      (s.set_voice vn).1.sessVoice = s.sessVoice ∧
      (s.set_voice vn).1.calls = s.calls) ∧
    (∀ v0 tl, s.voices = v0 :: tl →
      (s.set_voice vn).1.sessVoice = some v0 ∧
      (s.set_voice vn).1.trace =
        (match vn with
         | some name => s.trace ++ [Event.storeConfig { s.config with voice_name := name }]
         | none => s.trace) ++ [Event.engineSetVoice s.synth v0]) := by
  rcases vn with _ | name
  · have hf : s.get_voice_by_name none = none := by
      simp only [AppState.get_voice_by_name, Option.getD]
      rw [List.find?_eq_none]
      intro v hv
      simpa using habs v hv
    refine ⟨?_, ?_, ?_⟩
    · simp only [AppState.set_voice, hf]
      rcases hv : s.voices with _ | ⟨v0, tl⟩
      · rfl
      · simp [AppState.synthSetVoice, hok]
    · intro hv
      simp [AppState.set_voice, hf, hv]
    · intro v0 tl hv
      simp [AppState.set_voice, hf, hv, AppState.synthSetVoice, hok]
  · have hf : ∀ s1 : AppState, s1.voices = s.voices →
        s1.get_voice_by_name (some name) = none := by
      intro s1 h1
      simp only [AppState.get_voice_by_name, Option.getD, h1]
      rw [List.find?_eq_none]
      intro v hv
      simpa using habs v hv
    refine ⟨?_, ?_, ?_⟩
    · rcases hv : s.voices with _ | ⟨v0, tl⟩ <;>
        simp [AppState.set_voice, Config.store, hf, hv, AppState.synthSetVoice, hok]
    · intro hv
      simp [AppState.set_voice, Config.store, hf, hv]
    · intro v0 tl hv
      simp [AppState.set_voice, Config.store, hf, hv, AppState.synthSetVoice, hok]

theorem set_voice_fallback_witness :
    ((∀ n, stReady.ok n = true) ∧
      (∀ v ∈ stReady.voices,
        get_voice_name v ≠ (some "Eve [fr-FR]").getD stReady.config.voice_name)) ∧
    ((stReady.set_voice (some "Eve [fr-FR]")).2 = Except.ok () ∧
      (stReady.voices = [] →
        (stReady.set_voice (some "Eve [fr-FR]")).1.sessVoice = stReady.sessVoice ∧
        (stReady.set_voice (some "Eve [fr-FR]")).1.calls = stReady.calls) ∧
      (∀ v0 tl, stReady.voices = v0 :: tl →
        (stReady.set_voice (some "Eve [fr-FR]")).1.sessVoice = some v0 ∧
        (stReady.set_voice (some "Eve [fr-FR]")).1.trace =
          (match some "Eve [fr-FR]" with
           | some name =>
              stReady.trace ++
                [Event.storeConfig { stReady.config with voice_name := name }]
           | none => stReady.trace) ++ [Event.engineSetVoice stReady.synth v0])) :=
  ⟨⟨fun _ => rfl, by decide⟩,
    set_voice_fallback stReady (some "Eve [fr-FR]") (fun _ => rfl) (by decide)⟩

/-- C9: `set_rate (some r)` and `set_volume (some v)` write the given
value into the settings, persist it, and pass it to the session exactly
as supplied, with no clamping on write. -/
theorem set_rate_volume_passthrough (s : AppState) (r : Int) (vol : Nat)
    (hok : ∀ n, s.ok n = true) :
    (s.set_rate (some r)).2 = Except.ok () ∧
    (s.set_rate (some r)).1.config.rate = r ∧
    (s.set_rate (some r)).1.stored = some { s.config with rate := r } ∧
    (s.set_rate (some r)).1.trace =
      s.trace ++ [Event.storeConfig { s.config with rate := r },
                  Event.engineSetRate s.synth r] ∧
    (s.set_volume (some vol)).2 = Except.ok () ∧
    (s.set_volume (some vol)).1.config.volume = vol ∧
    (s.set_volume (some vol)).1.stored = some { s.config with volume := vol } ∧
    (s.set_volume (some vol)).1.trace =
      s.trace ++ [Event.storeConfig { s.config with volume := vol },
                  Event.engineSetVolume s.synth vol] := by
  refine ⟨?_, ?_, ?_, ?_, ?_, ?_, ?_, ?_⟩ <;>
    simp [AppState.set_rate, AppState.set_volume, Config.store,
      AppState.synthSetRate, AppState.synthSetVolume, hok]

theorem set_rate_volume_passthrough_witness :
    (∀ n, stReady.ok n = true) ∧
    ((stReady.set_rate (some 25)).2 = Except.ok () ∧
      (stReady.set_rate (some 25)).1.config.rate = 25 ∧
      (stReady.set_rate (some 25)).1.stored = some { stReady.config with rate := 25 } ∧
      (stReady.set_rate (some 25)).1.trace =
        stReady.trace ++ [Event.storeConfig { stReady.config with rate := 25 },
                          Event.engineSetRate stReady.synth 25] ∧
      (stReady.set_volume (some 150)).2 = Except.ok () ∧
      (stReady.set_volume (some 150)).1.config.volume = 150 ∧
      (stReady.set_volume (some 150)).1.stored =
        some { stReady.config with volume := 150 } ∧
      (stReady.set_volume (some 150)).1.trace =
        stReady.trace ++ [Event.storeConfig { stReady.config with volume := 150 },
                          Event.engineSetVolume stReady.synth 150]) :=
  ⟨fun _ => rfl, set_rate_volume_passthrough stReady 25 150 (fun _ => rfl)⟩

theorem newSessionStep_frame (s : AppState) :
    s.newSessionStep.config = s.config ∧ s.newSessionStep.stored = s.stored ∧
    s.newSessionStep.voices = s.voices ∧ s.newSessionStep.synth = s.nextSid ∧
    storeEvents s.newSessionStep.trace = storeEvents s.trace ∧
    submitEvents s.newSessionStep.trace = submitEvents s.trace := by
  simp [AppState.newSessionStep, storeEvents, submitEvents, isStore, isSubmit]

theorem submitStep_frame (s : AppState) (t : String) :
    (s.submitStep t).1.config = s.config ∧ (s.submitStep t).1.stored = s.stored ∧
    (s.submitStep t).1.synth = s.synth ∧
    storeEvents (s.submitStep t).1.trace = storeEvents s.trace := by
  unfold AppState.submitStep
  split <;> simp [storeEvents, isStore]

theorem synthSetVoice_frame (s : AppState) (v : Voice) :
    (s.synthSetVoice v).1.config = s.config ∧
    (s.synthSetVoice v).1.stored = s.stored ∧
    (s.synthSetVoice v).1.synth = s.synth ∧
    (s.synthSetVoice v).1.voices = s.voices ∧
    storeEvents (s.synthSetVoice v).1.trace = storeEvents s.trace ∧
    submitEvents (s.synthSetVoice v).1.trace = submitEvents s.trace := by
  unfold AppState.synthSetVoice
  split <;> simp [storeEvents, submitEvents, isStore, isSubmit]

theorem synthSetRate_frame (s : AppState) (r : Int) :
    (s.synthSetRate r).1.config = s.config ∧
    (s.synthSetRate r).1.stored = s.stored ∧
    (s.synthSetRate r).1.synth = s.synth ∧
    (s.synthSetRate r).1.voices = s.voices ∧
    storeEvents (s.synthSetRate r).1.trace = storeEvents s.trace ∧
    submitEvents (s.synthSetRate r).1.trace = submitEvents s.trace := by
  unfold AppState.synthSetRate
  split <;> simp [storeEvents, submitEvents, isStore, isSubmit]

theorem synthSetVolume_frame (s : AppState) (vol : Nat) :
    (s.synthSetVolume vol).1.config = s.config ∧
    (s.synthSetVolume vol).1.stored = s.stored ∧
    (s.synthSetVolume vol).1.synth = s.synth ∧
    (s.synthSetVolume vol).1.voices = s.voices ∧
    storeEvents (s.synthSetVolume vol).1.trace = storeEvents s.trace ∧
    submitEvents (s.synthSetVolume vol).1.trace = submitEvents s.trace := by
  unfold AppState.synthSetVolume
  split <;> simp [storeEvents, submitEvents, isStore, isSubmit]

theorem set_voice_frame (s : AppState) (vn : Option String) :
    (s.set_voice vn).1.synth = s.synth ∧
    (s.set_voice vn).1.voices = s.voices ∧
    submitEvents (s.set_voice vn).1.trace = submitEvents s.trace := by
  rcases vn with _ | name <;>
    simp only [AppState.set_voice, Config.store, AppState.synthSetVoice] <;>
    (repeat' split) <;>
    simp [storeEvents, submitEvents, isStore, isSubmit]

theorem set_rate_frame (s : AppState) (ro : Option Int) :
    (s.set_rate ro).1.synth = s.synth ∧
    (s.set_rate ro).1.voices = s.voices ∧
    submitEvents (s.set_rate ro).1.trace = submitEvents s.trace := by
  rcases ro with _ | r <;>
    simp only [AppState.set_rate, Config.store, AppState.synthSetRate] <;>
    (repeat' split) <;>
    simp [storeEvents, submitEvents, isStore, isSubmit]

theorem set_volume_frame (s : AppState) (vo : Option Nat) :
    (s.set_volume vo).1.synth = s.synth ∧
    (s.set_volume vo).1.voices = s.voices ∧
    submitEvents (s.set_volume vo).1.trace = submitEvents s.trace := by
  rcases vo with _ | vol <;>
    simp only [AppState.set_volume, Config.store, AppState.synthSetVolume] <;>
    (repeat' split) <;>
    simp [storeEvents, submitEvents, isStore, isSubmit]

theorem set_voice_none_frame (s : AppState) :
    (s.set_voice none).1.config = s.config ∧
    (s.set_voice none).1.stored = s.stored ∧
    storeEvents (s.set_voice none).1.trace = storeEvents s.trace := by
  simp only [AppState.set_voice, AppState.synthSetVoice]
  (repeat' split) <;> simp [storeEvents, isStore]

theorem set_rate_none_frame (s : AppState) :
    (s.set_rate none).1.config = s.config ∧
    (s.set_rate none).1.stored = s.stored ∧
    storeEvents (s.set_rate none).1.trace = storeEvents s.trace := by
  simp only [AppState.set_rate, AppState.synthSetRate]
  (repeat' split) <;> simp [storeEvents, isStore]

theorem set_volume_none_frame (s : AppState) :
    (s.set_volume none).1.config = s.config ∧
    (s.set_volume none).1.stored = s.stored ∧
    storeEvents (s.set_volume none).1.trace = storeEvents s.trace := by
  simp only [AppState.set_volume, AppState.synthSetVolume]
  (repeat' split) <;> simp [storeEvents, isStore]

theorem set_voice_none_ok (s : AppState) (h : s.ok s.calls = true) :
    s.set_voice none =
      (match resolvedVoice s with
       | some v =>
          { s with
              calls := s.calls + 1, sessVoice := some v,
              trace := s.trace ++ [Event.engineSetVoice s.synth v] }
       | none => s,
       Except.ok ()) := by
  rcases hfind : s.voices.find? (fun voice => get_voice_name voice == s.config.voice_name)
    with _ | v
  · rcases hv : s.voices with _ | ⟨v0, tl⟩
    · simp only [hv] at hfind
      simp [AppState.set_voice, AppState.get_voice_by_name, resolvedVoice, hv, hfind]
    · simp only [hv] at hfind
      simp [AppState.set_voice, AppState.get_voice_by_name, resolvedVoice, hv, hfind,
        AppState.synthSetVoice, h]
  · simp [AppState.set_voice, AppState.get_voice_by_name, resolvedVoice, hfind,
      AppState.synthSetVoice, h]

theorem set_rate_none_ok (s : AppState) (h : s.ok s.calls = true) :
    s.set_rate none =
      ({ s with
          calls := s.calls + 1, sessRate := s.config.rate,
          trace := s.trace ++ [Event.engineSetRate s.synth s.config.rate] },
       Except.ok ()) := by
  simp [AppState.set_rate, AppState.synthSetRate, h]

theorem set_volume_none_ok (s : AppState) (h : s.ok s.calls = true) :
    s.set_volume none =
      ({ s with
          calls := s.calls + 1, sessVolume := s.config.volume,
          trace := s.trace ++ [Event.engineSetVolume s.synth s.config.volume] },
       Except.ok ()) := by
  simp [AppState.set_volume, AppState.synthSetVolume, h]

theorem speak_success (s : AppState) (t : String) (hok : ∀ n, s.ok n = true) :
    s.speak t =
      ({ s with
          calls := s.calls + (match resolvedVoice s with | some _ => 5 | none => 4),
          synth := s.nextSid, nextSid := s.nextSid + 1, nextUid := s.nextUid + 1,
          sessVoice := resolvedVoice s, sessRate := s.config.rate,
          sessVolume := s.config.volume,
          trace := s.trace ++ speakTraceExt s t },
       Except.ok s.nextUid) := by
  have h0 : s.ok s.calls = true := hok _
  unfold AppState.speak
  rw [if_pos h0]
  rw [set_voice_none_ok s.newSessionStep (hok _)]
  rw [resolvedVoice_newSessionStep]
  rcases hrv : resolvedVoice s with _ | v <;>
    simp only [AppState.newSessionStep, set_rate_none_ok, set_volume_none_ok,
      AppState.submitStep, hok, if_true] <;>
    simp [speakTraceExt, hrv, hok]

/-- C1: under a platform that accepts every call, `speak` constructs a
replacement session and drops the current one (halting its audio), then
re-applies voice, rate and volume from the current settings to the new
session, and only then submits the requested text, returning the
platform's utterance identifier; a second `speak` therefore discards the
first call's session (`dropSession s.nextSid`, the session the first call
created) before submitting its own text, as the exact trace shows. -/
theorem speak_cancel_and_restart (s : AppState) (t1 t2 : String)
    (hok : ∀ n, s.ok n = true) :
    (s.speak t1).2 = Except.ok s.nextUid ∧
    (s.speak t1).1.trace = s.trace ++ speakTraceExt s t1 ∧
    (s.speak t1).1.synth = s.nextSid ∧
    (s.speak t1).1.sessRate = s.config.rate ∧
    (s.speak t1).1.sessVolume = s.config.volume ∧
    (s.speak t1).1.sessVoice = resolvedVoice s ∧
    ((s.speak t1).1.speak t2).2 = Except.ok (s.nextUid + 1) ∧
    ((s.speak t1).1.speak t2).1.trace =
      s.trace ++ speakTraceExt s t1 ++
        ([Event.newSession (s.nextSid + 1), Event.dropSession s.nextSid] ++
         (match resolvedVoice s with
          | some v => [Event.engineSetVoice (s.nextSid + 1) v]
          | none => []) ++
         [Event.engineSetRate (s.nextSid + 1) s.config.rate,
          Event.engineSetVolume (s.nextSid + 1) s.config.volume,
          Event.submit (s.nextSid + 1) t2 (s.nextUid + 1)]) := by
  have hok1 : ∀ n, (s.speak t1).1.ok n = true := by
    rw [speak_success s t1 hok]
    exact hok
  have h2 := speak_success (s.speak t1).1 t2 hok1
  have h1 := speak_success s t1 hok
  rw [h2, h1]
  simp only [resolvedVoice, speakTraceExt]
  rcases hfind : s.voices.find? (fun voice => get_voice_name voice == s.config.voice_name)
    with _ | v
  · rcases hv : s.voices with _ | ⟨v0, tl⟩ <;> simp [hfind, hv]
  · simp [hfind]

theorem speak_cancel_and_restart_witness :
    (∀ n, stReady.ok n = true) ∧
    ((stReady.speak "hello").2 = Except.ok 0 ∧
     (stReady.speak "hello").1.trace = stReady.trace ++ speakTraceExt stReady "hello" ∧
     (stReady.speak "hello").1.synth = 1 ∧
     (stReady.speak "hello").1.sessRate = 0 ∧
     (stReady.speak "hello").1.sessVolume = 100 ∧
     (stReady.speak "hello").1.sessVoice = resolvedVoice stReady ∧
     ((stReady.speak "hello").1.speak "world").2 = Except.ok 1 ∧
     ((stReady.speak "hello").1.speak "world").1.trace =
       stReady.trace ++ speakTraceExt stReady "hello" ++
         ([Event.newSession 2, Event.dropSession 1] ++
          (match resolvedVoice stReady with
           | some v => [Event.engineSetVoice 2 v]
           | none => []) ++
          [Event.engineSetRate 2 stReady.config.rate,
           Event.engineSetVolume 2 stReady.config.volume,
           Event.submit 2 "world" 1])) :=
  ⟨fun _ => rfl, speak_cancel_and_restart stReady "hello" "world" (fun _ => rfl)⟩

/-- C10: `speak` leaves the settings record entirely unchanged, both in
memory and on disk, and triggers no settings persist: its internal
setter calls receive `none` and therefore read the settings without
writing or storing them.  This holds on every oracle, i.e. on the success
path and on every failure path. -/
theorem speak_preserves_settings (s : AppState) (t : String) :
    (s.speak t).1.config = s.config ∧
    (s.speak t).1.stored = s.stored ∧
    storeEvents (s.speak t).1.trace = storeEvents s.trace := by
  by_cases h0 : s.ok s.calls
  · unfold AppState.speak
    rw [if_pos h0]
    obtain ⟨n1, n2, _, _, n5, _⟩ := newSessionStep_frame s
    rcases h3 : s.newSessionStep.set_voice none with ⟨s3, r3⟩
    obtain ⟨a1, a2, a3⟩ := set_voice_none_frame s.newSessionStep
    rw [h3] at a1 a2 a3
    rcases r3 with e3 | u3
    · exact ⟨a1.trans n1, a2.trans n2, a3.trans n5⟩
    · dsimp only
      rcases h4 : s3.set_rate none with ⟨s4, r4⟩
      obtain ⟨b1, b2, b3⟩ := set_rate_none_frame s3
      rw [h4] at b1 b2 b3
      rcases r4 with e4 | u4
      · exact ⟨b1.trans (a1.trans n1), b2.trans (a2.trans n2), b3.trans (a3.trans n5)⟩
      · dsimp only
        rcases h5 : s4.set_volume none with ⟨s5, r5⟩
        obtain ⟨c1, c2, c3⟩ := set_volume_none_frame s4
        rw [h5] at c1 c2 c3
        rcases r5 with e5 | u5
        · exact ⟨c1.trans (b1.trans (a1.trans n1)),
            c2.trans (b2.trans (a2.trans n2)),
            c3.trans (b3.trans (a3.trans n5))⟩
        · dsimp only
          obtain ⟨d1, d2, _, d4⟩ := submitStep_frame s5 t
          exact ⟨d1.trans (c1.trans (b1.trans (a1.trans n1))),
            d2.trans (c2.trans (b2.trans (a2.trans n2))),
            d4.trans (c3.trans (b3.trans (a3.trans n5)))⟩
  · unfold AppState.speak
    rw [if_neg h0]
    exact ⟨rfl, rfl, rfl⟩

/-- C2 counterexample: starting from a coordinator whose session is live
and configured per the current settings, a `speak` that fails at session
construction (the platform refuses every call) returns an `EngineError`
but leaves the coordinator exactly as it was: the same session identity,
a session still matching the settings, and an unchanged trace (in
particular no `dropSession`, so the old session keeps playing) — the
coordinator is not left without a valid session. -/
theorem speak_failure_keeps_valid_session :
    sessionMatchesConfig stEngineDown = true ∧
    (stEngineDown.speak "x").2 = Except.error EngineError.engineError ∧
    (stEngineDown.speak "x").1.synth = stEngineDown.synth ∧
    (stEngineDown.speak "x").1.trace = stEngineDown.trace ∧
    sessionMatchesConfig (stEngineDown.speak "x").1 = true :=
  ⟨rfl, rfl, rfl, rfl, rfl⟩

/-- C2 amended: if any step of `speak` fails (session construction,
re-application of voice/rate/volume, or submission), `speak` returns an
`EngineError` and the requested text is never submitted; the coordinator
still holds a session, but in an unknown configuration state: either the
previous session survives untouched (construction failed before the old
session could be dropped) or the freshly constructed replacement session
is in place, possibly only partly configured, until the next successful
`speak`. -/
theorem speak_failure_state (s : AppState) (t : String) (e : EngineError)
    (h : (s.speak t).2 = Except.error e) :
    submitEvents (s.speak t).1.trace = submitEvents s.trace ∧
    ((s.speak t).1.synth = s.synth ∧ (s.speak t).1.trace = s.trace ∨
      (s.speak t).1.synth = s.nextSid) := by
  by_cases h0 : s.ok s.calls
  · unfold AppState.speak
    rw [if_pos h0]
    unfold AppState.speak at h
    rw [if_pos h0] at h
    obtain ⟨_, _, _, n4, _, n6⟩ := newSessionStep_frame s
    rcases h3 : s.newSessionStep.set_voice none with ⟨s3, r3⟩
    obtain ⟨a1, _, a3⟩ := set_voice_frame s.newSessionStep none
    rw [h3] at a1 a3
    rw [h3] at h
    rcases r3 with e3 | u3
    · exact ⟨a3.trans n6, Or.inr (a1.trans n4)⟩
    · dsimp only
      dsimp only at h
      rcases h4 : s3.set_rate none with ⟨s4, r4⟩
      obtain ⟨b1, _, b3⟩ := set_rate_frame s3 none
      rw [h4] at b1 b3
      rw [h4] at h
      rcases r4 with e4 | u4
      · exact ⟨b3.trans (a3.trans n6), Or.inr (b1.trans (a1.trans n4))⟩
      · dsimp only
        dsimp only at h
        rcases h5 : s4.set_volume none with ⟨s5, r5⟩
        obtain ⟨c1, _, c3⟩ := set_volume_frame s4 none
        rw [h5] at c1 c3
        rw [h5] at h
        rcases r5 with e5 | u5
        · exact ⟨c3.trans (b3.trans (a3.trans n6)),
            Or.inr (c1.trans (b1.trans (a1.trans n4)))⟩
        · dsimp only
          dsimp only at h
          unfold AppState.submitStep at h ⊢
          by_cases h6 : s5.ok s5.calls
          · rw [if_pos h6] at h
            exact absurd h (by simp)
          · rw [if_neg h6]
            exact ⟨c3.trans (b3.trans (a3.trans n6)),
              Or.inr (c1.trans (b1.trans (a1.trans n4)))⟩
  · unfold AppState.speak
    rw [if_neg h0]
    exact ⟨rfl, Or.inl ⟨rfl, rfl⟩⟩

theorem speak_failure_state_witness :
    (stEngineDown.speak "x").2 = Except.error EngineError.engineError ∧
    (submitEvents (stEngineDown.speak "x").1.trace =
        submitEvents stEngineDown.trace ∧
      ((stEngineDown.speak "x").1.synth = stEngineDown.synth ∧
          (stEngineDown.speak "x").1.trace = stEngineDown.trace ∨
        (stEngineDown.speak "x").1.synth = stEngineDown.nextSid)) :=
  ⟨rfl, speak_failure_state stEngineDown "x" EngineError.engineError rfl⟩

/-- C5 refuted on the code: the UI test-button callback unwraps the
result of `speak`, so an `EngineError` during a steady-state,
UI-initiated `speak` panics (`none` here models the `unwrap` panic,
which terminates the process) instead of being surfaced as a recoverable
result.  The same unconditional `unwrap` sits on the UI voice/rate/volume
setter callbacks (lib.rs 272, 279, 286, 319); only the clipboard watch
thread discards the error. -/
theorem test_button_unwrap_panics :
    on_test_button_clicked stEngineDown "Hello" = none := rfl

end SimpleTTSReader
